import Mathlib

/-!
Shallow embedding of src/studymate.py (StudyMate tutoring app core).
The external generative service is modelled as a deterministic stub
function from prompt text to an outcome; exceptions raised by the
service become the explicit failure variant, and the truthiness checks
of the Python code are modelled explicitly.
-/

namespace StudyMate

/-- Outcome of one call to the external generate service, as observed by
the Python code: either a response object (with its truthiness flag and
its text attribute) or a raised exception carrying a message. -/
inductive ServiceResult where
  | success (respTruthy : Bool) (text : String)
  | failure (msg : String)
deriving DecidableEq

/-- A stub of the configured generative model: prompt text to outcome. -/
def Model : Type := String → ServiceResult

/-- Python str.strip: drop leading and trailing whitespace. -/
def pyStrip (s : String) : String :=
  ⟨((s.data.dropWhile Char.isWhitespace).reverse.dropWhile Char.isWhitespace).reverse⟩

/-- The language_instructions dict of create_study_prompt with its
.get default, as a total function. -/
def tutorInstructionFor (language : String) : String :=
  if language = "English" then "Respond in clear, simple English."
  else if language = "Hindi" then "हिंदी में उत्तर दें। सरल और स्पष्ट भाषा का उपयोग करें।"
  else if language = "Tamil" then "தமிழில் பதிலளிக்கவும். எளிய மற்றும் தெளிவான மொழியைப் பயன்படுத்துங்கள்."
  else if language = "Spanish" then "Responde en español claro y sencillo."
  else if language = "Japanese" then "日本語で答えてください。分かりやすく簡潔な言葉を使ってください。"
  else "Respond in English."

/-- The language_instructions dict of StudyMate.get_study_tips with its
.get default, as a total function. -/
def tipsInstructionFor (language : String) : String :=
  if language = "English" then "Respond in clear, simple English."
  else if language = "Hindi" then "हिंदी में उत्तर दें।"
  else if language = "Tamil" then "தமிழில் பதிலளிக்கவும்।"
  else if language = "Spanish" then "Responde en español."
  else if language = "Japanese" then "日本語で答えてください。"
  else "Respond in English."

/-- StudyMate.create_study_prompt: the tutor prompt f-string. -/
def create_study_prompt (question subject language difficulty : String) : String :=
  "\nYou are StudyMate, a friendly and knowledgeable AI tutor. A student has asked you a question about "
    ++ subject
    ++ ".\n\nQUESTION: "
    ++ question
    ++ "\n\nINSTRUCTIONS:\n- "
    ++ tutorInstructionFor language
    ++ "\n- Act like a patient, encouraging tutor who wants to help the student truly understand\n- Provide a detailed, step-by-step explanation\n- Use real-life examples and analogies when possible\n- Break down complex concepts into simple parts\n- Adjust your explanation for "
    ++ difficulty
    ++ " level\n- Be conversational and encouraging\n- If it\x27s a problem-solving question, show the complete solution process\n- If it\x27s a conceptual question, explain the \x27why\x27 behind the concept\n- End with a summary or key takeaway\n- Ask if the student needs clarification on any part\n\nRESPONSE FORMAT:\n1. Start with a friendly acknowledgment of their question\n2. Provide the main explanation with examples\n3. Give step-by-step breakdown if applicable\n4. Include real-world applications or examples\n5. Summarize key points\n6. Encourage further questions\n\nRemember: You\x27re not just giving answers, you\x27re helping students learn and understand!\n"

/-- The tips prompt f-string built inline in StudyMate.get_study_tips. -/
def create_tips_prompt (subject language : String) : String :=
  "\nYou are StudyMate, a helpful AI tutor. Provide 5-7 practical study tips specifically for "
    ++ subject
    ++ ".\n\nINSTRUCTIONS:\n- "
    ++ tipsInstructionFor language
    ++ "\n- Make tips actionable and specific to "
    ++ subject
    ++ "\n- Include both study techniques and practical advice\n- Be encouraging and motivational\n- Format as numbered list for easy reading\n- Include time management tips if relevant\n\nMake it friendly and encouraging!\n"

/-- StudyMate.get_study_response. Returns the displayed string together
with the number of outbound calls made to the external service. -/
def get_study_response (model : Option Model) (question subject language difficulty : String) :
    String × Nat :=
  match model with
  | none => ("❌ Please configure your Gemini API key first!", 0)
  | some m =>
    if pyStrip question = "" then
      ("Please ask me a study question! I\x27m here to help you learn. 📚", 0)
    else
      match m (create_study_prompt question subject language difficulty) with
      | ServiceResult.success respTruthy text =>
        if respTruthy = true ∧ text ≠ "" then (text, 1)
        else ("I couldn\x27t generate a response. Please try rephrasing your question.", 1)
      | ServiceResult.failure e =>
        ("❌ Error getting response: " ++ e
          ++ "\n\nPlease check your API key and internet connection.", 1)

/-- StudyMate.get_study_tips (the method). Returns the displayed string
together with the number of outbound calls made. -/
def studymate_get_study_tips (model : Option Model) (subject language : String) : String × Nat :=
  match model with
  | none => ("❌ Please configure your Gemini API key first!", 0)
  | some m =>
    match m (create_tips_prompt subject language) with
    | ServiceResult.success _ text =>
      (if text ≠ "" then text else "Couldn\x27t generate study tips right now.", 1)
    | ServiceResult.failure e => ("Error generating study tips: " ++ e, 1)

/-- The process-wide StudyMate instance state: stored credential and the
configured model handle. -/
structure SMState where
  api_key : Option String
  model : Option Model

/-- StudyMate.setup_gemini. The external genai initialization is a stub
argument; on its failure the state is left unchanged. The Nat counts
initialization attempts against the external dependency. -/
def setup_gemini (st : SMState) (apiKey : String) (init : String → Except String Model) :
    SMState × Bool × String × Nat :=
  match init apiKey with
  | Except.ok m =>
    ({ api_key := some apiKey, model := some m }, true, "✅ Gemini API configured successfully!", 1)
  | Except.error e => (st, false, "❌ Error configuring Gemini API: " ++ e, 1)

/-- Wrapper setup_api_key: rejects blank keys before touching the
external dependency, otherwise delegates to setup_gemini on the
stripped key. Returns state, success flag, status message, the
question-box text, and the count of external initialization attempts. -/
def setup_api_key (st : SMState) (apiKey : String) (init : String → Except String Model) :
    SMState × Bool × String × String × Nat :=
  if pyStrip apiKey = "" then (st, false, "❌ Please enter your Gemini API key", "", 0)
  else
    let r := setup_gemini st (pyStrip apiKey) init
    if r.2.1 then (r.1, r.2.1, r.2.2.1, "🎓 StudyMate is ready! Ask me any study question.", r.2.2.2)
    else (r.1, r.2.1, r.2.2.1, "", r.2.2.2)

/-- Wrapper ask_question: returns the updated chat history, the new
question-box content, and the number of external calls made. When the
model is not configured the history is returned unchanged. -/
def ask_question (model : Option Model) (question subject language difficulty : String)
    (history : List (String × String)) : List (String × String) × String × Nat :=
  match model with
  | none => (history, "❌ Please configure your Gemini API key first!", 0)
  | some m =>
    let r := get_study_response (some m) question subject language difficulty
    (history ++ [(question, r.1)], "", r.2)

/-- Wrapper get_study_tips: always appends a synthesized question and
the tips text to the chat history. -/
def get_study_tips_action (model : Option Model) (subject language : String)
    (history : List (String × String)) : List (String × String) × Nat :=
  let r := studymate_get_study_tips model subject language
  (history ++ [("Can you give me study tips for " ++ subject ++ "?", r.1)], r.2)

/-- Wrapper clear_chat: the cleared chat history. -/
def clear_chat : List (String × String) := []

/-- One user-initiated action of a session. -/
inductive Op where
  | setup (credential : String) (init : String → Except String Model)
  | ask (question subject language difficulty : String)
  | tips (subject language : String)
  | clear

/-- One step of the session: the UI dispatches an action against the
shared StudyMate state and the chat history. -/
def stepOp (s : SMState × List (String × String)) (op : Op) : SMState × List (String × String) :=
  match op with
  | Op.setup cred init => ((setup_api_key s.1 cred init).1, s.2)
  | Op.ask q sub l d => (s.1, (ask_question s.1.model q sub l d s.2).1)
  | Op.tips sub l => (s.1, (get_study_tips_action s.1.model sub l s.2).1)
  | Op.clear => (s.1, clear_chat)

/-- Run a sequence of session actions from a starting state. -/
def runOps (ops : List Op) (s : SMState × List (String × String)) :
    SMState × List (String × String) :=
  ops.foldl stepOp s

/-- pat occurs as a contiguous substring of s. -/
def SubstrOf (pat s : String) : Prop := pat.data <:+: s.data

instance (pat s : String) : Decidable (SubstrOf pat s) :=
  inferInstanceAs (Decidable (pat.data <:+: s.data))

lemma substrOf_refl (s : String) : SubstrOf s s :=
  ⟨[], [], by simp⟩

lemma substrOf_append_left {p a : String} (b : String) (h : SubstrOf p a) :
    SubstrOf p (a ++ b) := by
  obtain ⟨u, v, huv⟩ := h
  exact ⟨u, v ++ b.data, by rw [String.data_append, ← huv]; simp⟩

lemma substrOf_append_right {p b : String} (a : String) (h : SubstrOf p b) :
    SubstrOf p (a ++ b) := by
  obtain ⟨u, v, huv⟩ := h
  exact ⟨a.data ++ u, v, by rw [String.data_append, ← huv]; simp⟩

/-- C4: For every non-empty question q and arbitrary subject s, language
name l and difficulty d, the tutor prompt contains q, s, d and the
resolved language instruction as substrings, with the question embedded
verbatim and untruncated, and no validation of s or d. -/
theorem c4_prompt_contains (q s l d : String) (_hq : q ≠ "") :
    SubstrOf q (create_study_prompt q s l d) ∧
    SubstrOf s (create_study_prompt q s l d) ∧
    SubstrOf d (create_study_prompt q s l d) ∧
    SubstrOf (tutorInstructionFor l) (create_study_prompt q s l d) := by
  unfold create_study_prompt
  refine ⟨?_, ?_, ?_, ?_⟩
  · exact substrOf_append_left _ (substrOf_append_left _ (substrOf_append_left _
      (substrOf_append_left _ (substrOf_append_left _
        (substrOf_append_right _ (substrOf_refl q))))))
  · exact substrOf_append_left _ (substrOf_append_left _ (substrOf_append_left _
      (substrOf_append_left _ (substrOf_append_left _ (substrOf_append_left _
        (substrOf_append_left _ (substrOf_append_right _ (substrOf_refl s))))))))
  · exact substrOf_append_left _ (substrOf_append_right _ (substrOf_refl d))
  · exact substrOf_append_left _ (substrOf_append_left _ (substrOf_append_left _
      (substrOf_append_right _ (substrOf_refl (tutorInstructionFor l)))))

theorem c4_prompt_contains_witness :
    SubstrOf "What is gravity?"
      (create_study_prompt "What is gravity?" "Physics" "English" "Beginner") ∧
    SubstrOf "Physics" (create_study_prompt "What is gravity?" "Physics" "English" "Beginner") ∧
    SubstrOf "Beginner" (create_study_prompt "What is gravity?" "Physics" "English" "Beginner") ∧
    SubstrOf (tutorInstructionFor "English")
      (create_study_prompt "What is gravity?" "Physics" "English" "Beginner") :=
  c4_prompt_contains "What is gravity?" "Physics" "English" "Beginner" (by decide)

/-- C5: For each of the five registered language names the tutor
instruction lookup returns the exact non-empty instruction text, and for
every name outside the set it returns the defined English default; the
lookup is a total function. -/
theorem c5_instruction_lookup (l : String)
    (h : l ≠ "English" ∧ l ≠ "Hindi" ∧ l ≠ "Tamil" ∧ l ≠ "Spanish" ∧ l ≠ "Japanese") :
    tutorInstructionFor "English" = "Respond in clear, simple English." ∧
    tutorInstructionFor "Hindi" = "हिंदी में उत्तर दें। सरल और स्पष्ट भाषा का उपयोग करें।" ∧
    tutorInstructionFor "Tamil"
      = "தமிழில் பதிலளிக்கவும். எளிய மற்றும் தெளிவான மொழியைப் பயன்படுத்துங்கள்." ∧
    tutorInstructionFor "Spanish" = "Responde en español claro y sencillo." ∧
    tutorInstructionFor "Japanese" = "日本語で答えてください。分かりやすく簡潔な言葉を使ってください。" ∧
    tutorInstructionFor "English" ≠ "" ∧
    tutorInstructionFor "Hindi" ≠ "" ∧
    tutorInstructionFor "Tamil" ≠ "" ∧
    tutorInstructionFor "Spanish" ≠ "" ∧
    tutorInstructionFor "Japanese" ≠ "" ∧
    tutorInstructionFor l = "Respond in English." := by
  obtain ⟨h1, h2, h3, h4, h5⟩ := h
  refine ⟨by decide, by decide, by decide, by decide, by decide,
    by decide, by decide, by decide, by decide, by decide, ?_⟩
  simp [tutorInstructionFor, h1, h2, h3, h4, h5]

theorem c5_instruction_lookup_witness :
    tutorInstructionFor "English" = "Respond in clear, simple English." ∧
    tutorInstructionFor "Hindi" = "हिंदी में उत्तर दें। सरल और स्पष्ट भाषा का उपयोग करें।" ∧
    tutorInstructionFor "Tamil"
      = "தமிழில் பதிலளிக்கவும். எளிய மற்றும் தெளிவான மொழியைப் பயன்படுத்துங்கள்." ∧
    tutorInstructionFor "Spanish" = "Responde en español claro y sencillo." ∧
    tutorInstructionFor "Japanese" = "日本語で答えてください。分かりやすく簡潔な言葉を使ってください。" ∧
    tutorInstructionFor "English" ≠ "" ∧
    tutorInstructionFor "Hindi" ≠ "" ∧
    tutorInstructionFor "Tamil" ≠ "" ∧
    tutorInstructionFor "Spanish" ≠ "" ∧
    tutorInstructionFor "Japanese" ≠ "" ∧
    tutorInstructionFor "French" = "Respond in English." :=
  c5_instruction_lookup "French"
    ⟨by decide, by decide, by decide, by decide, by decide⟩

/-- C6: While the client is not configured, get_study_response returns
the fixed not-configured message as a normal return value and makes
zero calls to the external service. -/
theorem c6_not_configured (q s l d : String) :
    get_study_response none q s l d = ("❌ Please configure your Gemini API key first!", 0) :=
  rfl

/-- C7: For a configured client and a question that strips to empty,
get_study_response returns the fixed friendly empty-question message
and makes zero calls to the external service. -/
theorem c7_empty_question (m : Model) (q s l d : String) (h : pyStrip q = "") :
    get_study_response (some m) q s l d
      = ("Please ask me a study question! I\x27m here to help you learn. 📚", 0) := by
  simp [get_study_response, h]

theorem c7_empty_question_witness :
    get_study_response (some fun _ => ServiceResult.success true "T") "  " "Physics" "English"
        "Beginner"
      = ("Please ask me a study question! I\x27m here to help you learn. 📚", 0) :=
  c7_empty_question (fun _ => ServiceResult.success true "T") "  " "Physics" "English" "Beginner"
    (by decide)

/-- C8: For a credential that strips to empty, setup_api_key fails with
the empty-key message, leaves the state unchanged, and makes zero calls
to the external initialization. -/
theorem c8_empty_credential (st : SMState) (cred : String) (init : String → Except String Model)
    (h : pyStrip cred = "") :
    setup_api_key st cred init = (st, false, "❌ Please enter your Gemini API key", "", 0) := by
  simp [setup_api_key, h]

theorem c8_empty_credential_witness :
    setup_api_key ⟨none, none⟩ "   " (fun _ => Except.error "down")
      = (⟨none, none⟩, false, "❌ Please enter your Gemini API key", "", 0) :=
  c8_empty_credential ⟨none, none⟩ "   " (fun _ => Except.error "down") (by decide)

/-- C1: For a configured client, a question that does not strip to
empty, and a service stub returning usable text T, get_study_response
returns exactly T with one external call, and ask_question appends one
turn so the log afterwards has length +1 with the new turn
(question, T) last. -/
theorem c1_ask_appends (m : Model) (q s l d T : String) (hist : List (String × String))
    (hq : pyStrip q ≠ "")
    (hT : m (create_study_prompt q s l d) = ServiceResult.success true T) (hT0 : T ≠ "") :
    get_study_response (some m) q s l d = (T, 1) ∧
    ask_question (some m) q s l d hist = (hist ++ [(q, T)], "", 1) ∧
    (ask_question (some m) q s l d hist).1.length = hist.length + 1 ∧
    (ask_question (some m) q s l d hist).1.getLast? = some (q, T) := by
  have hg : get_study_response (some m) q s l d = (T, 1) := by
    simp [get_study_response, hq, hT, hT0]
  refine ⟨hg, ?_, ?_, ?_⟩ <;> simp [ask_question, hg]

theorem c1_ask_appends_witness :
    get_study_response (some fun _ => ServiceResult.success true "T") "Explain photosynthesis"
        "Biology" "English" "Intermediate" = ("T", 1) ∧
    ask_question (some fun _ => ServiceResult.success true "T") "Explain photosynthesis" "Biology"
        "English" "Intermediate" []
      = (([] : List (String × String)) ++ [("Explain photosynthesis", "T")], "", 1) ∧
    (ask_question (some fun _ => ServiceResult.success true "T") "Explain photosynthesis" "Biology"
        "English" "Intermediate" []).1.length = ([] : List (String × String)).length + 1 ∧
    (ask_question (some fun _ => ServiceResult.success true "T") "Explain photosynthesis" "Biology"
        "English" "Intermediate" []).1.getLast? = some ("Explain photosynthesis", "T") :=
  c1_ask_appends (fun _ => ServiceResult.success true "T") "Explain photosynthesis" "Biology"
    "English" "Intermediate" "T" [] (by decide) rfl (by decide)

/-- C2 corrected: when the external generate call raises an error, both
paths return a displayable string containing the error description, and
get_study_response additionally embeds the remediation hint about
checking the API key and connection; the tips path carries no such
hint, only the description. -/
theorem c2_error_messages (m : Model) (q s l d e : String)
    (hq : pyStrip q ≠ "")
    (h1 : m (create_study_prompt q s l d) = ServiceResult.failure e)
    (h2 : m (create_tips_prompt s l) = ServiceResult.failure e) :
    (get_study_response (some m) q s l d).1
      = "❌ Error getting response: " ++ e
          ++ "\n\nPlease check your API key and internet connection." ∧
    SubstrOf e (get_study_response (some m) q s l d).1 ∧
    SubstrOf "Please check your API key and internet connection."
      (get_study_response (some m) q s l d).1 ∧
    (studymate_get_study_tips (some m) s l).1 = "Error generating study tips: " ++ e ∧
    SubstrOf e (studymate_get_study_tips (some m) s l).1 := by
  have hr : (get_study_response (some m) q s l d).1
      = "❌ Error getting response: " ++ e
          ++ "\n\nPlease check your API key and internet connection." := by
    simp [get_study_response, hq, h1]
  have ht : (studymate_get_study_tips (some m) s l).1
      = "Error generating study tips: " ++ e := by
    simp [studymate_get_study_tips, h2]
  refine ⟨hr, ?_, ?_, ht, ?_⟩
  · rw [hr]
    exact substrOf_append_left _ (substrOf_append_right _ (substrOf_refl e))
  · rw [hr]
    exact substrOf_append_right _ (by decide)
  · rw [ht]
    exact substrOf_append_right _ (substrOf_refl e)

theorem c2_error_messages_witness :
    (get_study_response (some fun _ => ServiceResult.failure "quota exceeded") "What is gravity?"
        "Physics" "English" "Beginner").1
      = "❌ Error getting response: " ++ "quota exceeded"
          ++ "\n\nPlease check your API key and internet connection." ∧
    SubstrOf "quota exceeded"
      (get_study_response (some fun _ => ServiceResult.failure "quota exceeded") "What is gravity?"
        "Physics" "English" "Beginner").1 ∧
    SubstrOf "Please check your API key and internet connection."
      (get_study_response (some fun _ => ServiceResult.failure "quota exceeded") "What is gravity?"
        "Physics" "English" "Beginner").1 ∧
    (studymate_get_study_tips (some fun _ => ServiceResult.failure "quota exceeded") "Physics"
        "English").1
      = "Error generating study tips: " ++ "quota exceeded" ∧
    SubstrOf "quota exceeded"
      (studymate_get_study_tips (some fun _ => ServiceResult.failure "quota exceeded") "Physics"
        "English").1 :=
  c2_error_messages (fun _ => ServiceResult.failure "quota exceeded") "What is gravity?" "Physics"
    "English" "Beginner" "quota exceeded" (by decide) rfl rfl

/-- C2 counterexample: a service error on the tips path yields a message
that carries the error description but no remediation hint at all — it
contains no occurrence of check, credential or connection wording — so
the stated property fails for studyTips. -/
theorem c2_counterexample :
    (studymate_get_study_tips (some fun _ => ServiceResult.failure "boom") "Mathematics"
        "English").1
      = "Error generating study tips: boom" ∧
    ¬ SubstrOf "check"
      (studymate_get_study_tips (some fun _ => ServiceResult.failure "boom") "Mathematics"
        "English").1 ∧
    ¬ SubstrOf "credential"
      (studymate_get_study_tips (some fun _ => ServiceResult.failure "boom") "Mathematics"
        "English").1 ∧
    ¬ SubstrOf "connect"
      (studymate_get_study_tips (some fun _ => ServiceResult.failure "boom") "Mathematics"
        "English").1 :=
  ⟨rfl, by decide, by decide, by decide⟩

/-- C3 counterexample: the two prompt builders do not consult one and
the same mapping — for Hindi the tutor instruction and the tips
instruction differ. -/
theorem c3_counterexample :
    tutorInstructionFor "Hindi" ≠ tipsInstructionFor "Hindi" := by decide

/-- C3 corrected: the two prompt builders use two separate fixed
mappings over the same five names with the same default. They agree on
English and on every unrecognized name, but on Hindi, Tamil, Spanish
and Japanese the tips mapping holds a shortened instruction different
from the tutor one. -/
theorem c3_two_mappings (l : String)
    (h : l ≠ "English" ∧ l ≠ "Hindi" ∧ l ≠ "Tamil" ∧ l ≠ "Spanish" ∧ l ≠ "Japanese") :
    tipsInstructionFor l = tutorInstructionFor l ∧
    tipsInstructionFor l = "Respond in English." ∧
    tipsInstructionFor "English" = tutorInstructionFor "English" ∧
    tutorInstructionFor "Hindi" ≠ tipsInstructionFor "Hindi" ∧
    tutorInstructionFor "Tamil" ≠ tipsInstructionFor "Tamil" ∧
    tutorInstructionFor "Spanish" ≠ tipsInstructionFor "Spanish" ∧
    tutorInstructionFor "Japanese" ≠ tipsInstructionFor "Japanese" := by
  obtain ⟨h1, h2, h3, h4, h5⟩ := h
  refine ⟨?_, ?_, by decide, by decide, by decide, by decide, by decide⟩ <;>
    simp [tutorInstructionFor, tipsInstructionFor, h1, h2, h3, h4, h5]

theorem c3_two_mappings_witness :
    tipsInstructionFor "French" = tutorInstructionFor "French" ∧
    tipsInstructionFor "French" = "Respond in English." ∧
    tipsInstructionFor "English" = tutorInstructionFor "English" ∧
    tutorInstructionFor "Hindi" ≠ tipsInstructionFor "Hindi" ∧
    tutorInstructionFor "Tamil" ≠ tipsInstructionFor "Tamil" ∧
    tutorInstructionFor "Spanish" ≠ tipsInstructionFor "Spanish" ∧
    tutorInstructionFor "Japanese" ≠ tipsInstructionFor "Japanese" :=
  c3_two_mappings "French" ⟨by decide, by decide, by decide, by decide, by decide⟩

lemma setup_api_key_model_isSome (st : SMState) (cred : String)
    (init : String → Except String Model) (h : st.model.isSome) :
    (setup_api_key st cred init).1.model.isSome := by
  unfold setup_api_key setup_gemini
  by_cases hc : pyStrip cred = ""
  · simpa [hc]
  · cases hinit : init (pyStrip cred) with
    | ok m => simp [hc, hinit]
    | error e => simpa [hc, hinit]

lemma stepOp_model_isSome (s : SMState × List (String × String)) (op : Op)
    (h : s.1.model.isSome) : (stepOp s op).1.model.isSome := by
  cases op with
  | setup cred init => exact setup_api_key_model_isSome s.1 cred init h
  | ask q sub l d => simpa [stepOp]
  | tips sub l => simpa [stepOp]
  | clear => simpa [stepOp]

lemma runOps_model_isSome (ops : List Op) (s : SMState × List (String × String))
    (h : s.1.model.isSome) : (runOps ops s).1.model.isSome := by
  induction ops generalizing s with
  | nil => simpa [runOps]
  | cons op rest ih =>
    rw [runOps, List.foldl_cons]
    exact ih (stepOp s op) (stepOp_model_isSome s op h)

lemma configured_response_calls (m : Model) (q s l d : String) (hq : pyStrip q ≠ "") :
    (get_study_response (some m) q s l d).2 = 1 := by
  simp only [get_study_response]
  rw [if_neg hq]
  cases m (create_study_prompt q s l d) with
  | success rt t => by_cases h : rt = true ∧ t ≠ "" <;> simp [h]
  | failure e => rfl

lemma configured_tips_calls (m : Model) (s l : String) :
    (studymate_get_study_tips (some m) s l).2 = 1 := by
  simp only [studymate_get_study_tips]
  cases m (create_tips_prompt s l) with
  | success rt t => rfl
  | failure e => rfl

/-- C9: Once the client is configured, no later session action — not
even a failing configure attempt — makes it unconfigured again, and
afterwards get_study_response and the tips method never take the
not-configured branch, whose result is the fixed message together with
zero external calls. -/
theorem c9_configured_stays (s0 : SMState × List (String × String)) (ops : List Op)
    (q sub l d : String) (h : s0.1.model.isSome) :
    (runOps ops s0).1.model.isSome ∧
    get_study_response (runOps ops s0).1.model q sub l d
      ≠ ("❌ Please configure your Gemini API key first!", 0) ∧
    studymate_get_study_tips (runOps ops s0).1.model sub l
      ≠ ("❌ Please configure your Gemini API key first!", 0) := by
  have hs := runOps_model_isSome ops s0 h
  obtain ⟨m, hm⟩ := Option.isSome_iff_exists.mp hs
  refine ⟨hs, ?_, ?_⟩
  · rw [hm]
    by_cases hq : pyStrip q = ""
    · have he : get_study_response (some m) q sub l d
          = ("Please ask me a study question! I\x27m here to help you learn. 📚", 0) := by
        simp [get_study_response, hq]
      rw [he]
      decide
    · intro hcontra
      have h2 := configured_response_calls m q sub l d hq
      rw [hcontra] at h2
      exact absurd h2 (by decide)
  · rw [hm]
    intro hcontra
    have h2 := configured_tips_calls m sub l
    rw [hcontra] at h2
    exact absurd h2 (by decide)

theorem c9_configured_stays_witness :
    (runOps
        [Op.setup "" (fun _ => Except.error "down"),
          Op.setup "k2" (fun _ => Except.error "down"), Op.clear,
          Op.tips "Biology" "English"]
        (⟨some "k", some fun _ => ServiceResult.success true "T"⟩,
          ([] : List (String × String)))).1.model.isSome ∧
    get_study_response
        (runOps
          [Op.setup "" (fun _ => Except.error "down"),
            Op.setup "k2" (fun _ => Except.error "down"), Op.clear,
            Op.tips "Biology" "English"]
          (⟨some "k", some fun _ => ServiceResult.success true "T"⟩,
            ([] : List (String × String)))).1.model
        "What is gravity?" "Physics" "English" "Beginner"
      ≠ ("❌ Please configure your Gemini API key first!", 0) ∧
    studymate_get_study_tips
        (runOps
          [Op.setup "" (fun _ => Except.error "down"),
            Op.setup "k2" (fun _ => Except.error "down"), Op.clear,
            Op.tips "Biology" "English"]
          (⟨some "k", some fun _ => ServiceResult.success true "T"⟩,
            ([] : List (String × String)))).1.model
        "Physics" "English"
      ≠ ("❌ Please configure your Gemini API key first!", 0) :=
  c9_configured_stays
    (⟨some "k", some fun _ => ServiceResult.success true "T"⟩, ([] : List (String × String)))
    [Op.setup "" (fun _ => Except.error "down"), Op.setup "k2" (fun _ => Except.error "down"),
      Op.clear, Op.tips "Biology" "English"]
    "What is gravity?" "Physics" "English" "Beginner" rfl

/-- C10: Every invocation of the study-tips action appends exactly one
turn whose prompt text is the synthesized study-tips question; when the
client is not configured the not-configured message becomes that turn
response text, whereas the ask action appends nothing when the client
is not configured. -/
theorem c10_tips_always_appends (model : Option Model) (subject language : String)
    (history : List (String × String)) :
    (get_study_tips_action model subject language history).1
      = history
          ++ [("Can you give me study tips for " ++ subject ++ "?",
                (studymate_get_study_tips model subject language).1)] ∧
    (get_study_tips_action model subject language history).1.length = history.length + 1 ∧
    (get_study_tips_action none subject language history).1.getLast?
      = some ("Can you give me study tips for " ++ subject ++ "?",
          "❌ Please configure your Gemini API key first!") ∧
    ∀ q d, ask_question none q subject language d history
      = (history, "❌ Please configure your Gemini API key first!", 0) := by
  refine ⟨rfl, by simp [get_study_tips_action], ?_, fun q d => rfl⟩
  simp [get_study_tips_action, studymate_get_study_tips]

end StudyMate
